import Mathlib

/-!
Verification development for two firmware components:

* the QEMU SBSA SiP service (`sbsa_sip_svc.c`): a platform-descriptor
  cache populated once from a DeviceTree blob and a synchronous SMC
  call gate serving platform-information queries, and

* the STM32MP1 BL2 post-image-load resolver
  (`plat/st/stm32mp1/bl2_plat_setup.c`): firmware-config resolution and
  OP-TEE composite-image handling.

The embedding is shallow: C statics become explicit state values, the
fixed-capacity per-CPU array becomes a total function `Nat → CpuData`
(so that an out-of-bounds store is still visible as a store at an index
at or past the declared capacity), external collaborators
(`fconf_populate`, `parse_optee_header`, libfdt property reads) become
explicit inputs, and `panic()` becomes a distinguished outcome.
The build configuration modelled is `STM32MP_USE_STM32IMAGE = 0`, the
path the firmware-config claims are about.
-/

/-- One per-CPU record of the SBSA platform descriptor: the NUMA node id
and the mpidr (affinity id) read from the DeviceTree. -/
structure CpuData where
  nodeid : Nat
  mpidr : Nat
deriving DecidableEq

/-- One `cpu@N` sub-node of `/cpus` as QEMU presents it: an optional
`reg` property (the mpidr) and an optional `numa-node-id` property. -/
structure DtCpuNode where
  reg : Option Nat
  numa : Option Nat
deriving DecidableEq

/-- Pointwise update of the per-CPU array at one index; models the store
`dynamic_platform_info.cpu[cpu] = ...`. The index is NOT bounds-checked,
exactly as in the C source. -/
def cpuStore (arr : Nat → CpuData) (i : Nat) (v : CpuData) : Nat → CpuData :=
  fun j => if j = i then v else arr j

/-- The `while (node > 0)` loop of `read_cpuinfo_from_dt`: walks the
sibling list of `/cpus/cpu@0`, threading the current `nodeid` (sticky:
updated only when a `numa-node-id` property is present) and `mpidr`
(sticky: updated only when a `reg` property is present), storing one
`CpuData` per sub-node at successive indices, and finally returning the
updated array together with the final counter (`num_cpus`). -/
def read_cpuinfo_loop : List DtCpuNode → Nat → Nat → (Nat → CpuData) → Nat →
    (Nat → CpuData) × Nat
  | [], _, _, arr, cpu => (arr, cpu)
  | n :: rest, nodeid, mpidr, arr, cpu =>
    let mpidr2 := match n.reg with | some m => m | none => mpidr
    let nodeid2 := match n.numa with | some v => v | none => nodeid
    read_cpuinfo_loop rest nodeid2 mpidr2 (cpuStore arr cpu ⟨nodeid2, mpidr2⟩) (cpu + 1)

/-- `read_cpuinfo_from_dt`: `nodeid` starts at 0, `mpidr` is an
uninitialised local (modelled as the parameter `mpidr0`), the counter
starts at 0. Returns the final per-CPU array and `num_cpus`. -/
def read_cpuinfo_from_dt (nodes : List DtCpuNode) (arr : Nat → CpuData)
    (mpidr0 : Nat) : (Nat → CpuData) × Nat :=
  read_cpuinfo_loop nodes 0 mpidr0 arr 0

/-- The sequence of `{node_id, affinity_id}` pairs appended during
DeviceTree traversal, in traversal order, as the spec describes it:
the reference list a cpu-node query is compared against. -/
def traverse_pairs : List DtCpuNode → Nat → Nat → List CpuData
  | [], _, _ => []
  | n :: rest, nodeid, mpidr =>
    let mpidr2 := match n.reg with | some m => m | none => mpidr
    let nodeid2 := match n.numa with | some v => v | none => nodeid
    ⟨nodeid2, mpidr2⟩ :: traverse_pairs rest nodeid2 mpidr2

/-- The root node's optional platform-version properties. -/
structure DtRoot where
  machine_version_major : Option Nat
  machine_version_minor : Option Nat
deriving DecidableEq

/-- `fdt32_ld` applied to the result of `fdt_getprop`: `fdt_getprop`
returns NULL (`none`) when the property is absent, and `fdt32_ld`
dereferences its argument unconditionally, so an absent property is a
NULL-pointer dereference — modelled as `none` (undefined behaviour). -/
def fdt32_ld : Option Nat → Option Nat
  | none => none
  | some v => some v

/-- `read_platform_version`: the root node `/` of a valid DTB always
exists, so the `node >= 0` branch is taken and both properties are read
with `fdt32_ld (fdt_getprop ...)`. `some (major, minor)` is the values
stored into the platform-version statics; `none` means the function hit
the NULL dereference. -/
def read_platform_version (root : DtRoot) : Option (Nat × Nat) :=
  match fdt32_ld root.machine_version_major with
  | none => none
  | some a =>
    match fdt32_ld root.machine_version_minor with
    | none => none
    | some b => some (a, b)

/-- The process-wide state read by the SMC handler: the platform
descriptor cache (`dynamic_platform_info`, the version statics, the GIC
bases and the ITS address). -/
structure PlatState where
  num_cpus : Nat
  cpu : Nat → CpuData
  platform_version_major : Nat
  platform_version_minor : Nat
  gicd : Nat
  gicr : Nat
  gic_its_addr : Nat

/-- An SMC result: `SMC_RET1`, `SMC_RET2` or `SMC_RET3` — one, two or
three register-sized result words. -/
inductive SmcResult where
  | ret1 (x0 : Int)
  | ret2 (x0 x1 : Int)
  | ret3 (x0 x1 x2 : Int)
deriving DecidableEq

/-- `SMC_UNK`: the single "unknown function" status word. -/
def SMC_UNK : Int := -1

/-- `SMC_ARCH_CALL_INVAL_PARAM`: the "invalid parameter" status word. -/
def SMC_ARCH_CALL_INVAL_PARAM : Int := -3

def SMC_FASTCALL : Nat := 0x80000000

def SMC64_FUNCTION : Nat := SMC_FASTCALL ||| 0x40000000

def SIP_FUNCTION : Nat := SMC64_FUNCTION ||| 0x02000000

def SIP_FUNCTION_ID (n : Nat) : Nat := SIP_FUNCTION ||| n

def SIP_SVC_VERSION : Nat := SIP_FUNCTION_ID 1

def SIP_SVC_GET_GIC : Nat := SIP_FUNCTION_ID 100

def SIP_SVC_GET_GIC_ITS : Nat := SIP_FUNCTION_ID 101

def SIP_SVC_GET_CPU_COUNT : Nat := SIP_FUNCTION_ID 200

def SIP_SVC_GET_CPU_NODE : Nat := SIP_FUNCTION_ID 201

/-- `is_caller_non_secure(flags)`: bit 0 of the flags word
(`SMC_FROM_NON_SECURE`) set means the SMC originated from the
non-secure world. -/
def is_caller_non_secure (flags : Nat) : Bool := (flags &&& 1) != 0

/-- `sbsa_sip_smc_handler`: the SiP call gate. `coreCount` is the
compile-time `PLATFORM_CORE_COUNT` capacity of the per-CPU array.
Rejects secure-world callers with `SMC_UNK` before dispatching on the
function id; the cpu-node query bounds-checks its index against
`coreCount` only. -/
def sbsa_sip_smc_handler (coreCount : Nat) (st : PlatState)
    (smc_fid x1 _x2 _x3 _x4 : Nat) (flags : Nat) : SmcResult :=
  if ¬ is_caller_non_secure flags then
    .ret1 SMC_UNK
  else if smc_fid = SIP_SVC_VERSION then
    .ret3 0 (st.platform_version_major : Int) (st.platform_version_minor : Int)
  else if smc_fid = SIP_SVC_GET_GIC then
    .ret3 0 (st.gicd : Int) (st.gicr : Int)
  else if smc_fid = SIP_SVC_GET_GIC_ITS then
    .ret2 0 (st.gic_its_addr : Int)
  else if smc_fid = SIP_SVC_GET_CPU_COUNT then
    .ret2 0 (st.num_cpus : Int)
  else if smc_fid = SIP_SVC_GET_CPU_NODE then
    if x1 < coreCount then
      .ret3 0 ((st.cpu x1).nodeid : Int) ((st.cpu x1).mpidr : Int)
    else
      .ret1 SMC_ARCH_CALL_INVAL_PARAM
  else
    .ret1 SMC_UNK

/-- The image identities handled by the STM32MP1 BL2 post-image-load
resolver (those with records in the static descriptor table). -/
inductive ImageId where
  | FW_CONFIG
  | BL32
  | BL32_EXTRA1
  | BL32_EXTRA2
  | BL33
  | HW_CONFIG
  | TOS_FW_CONFIG
deriving DecidableEq

/-- The fields of a `bl_mem_params_node_t` record the resolver touches:
image placement (`image_info.image_base` / `image_info.image_max_size`),
the skip-loading attribute bit, and the entry-point descriptor fields
`ep_info.pc`, `ep_info.args.arg0` and `ep_info.lr_svc`. -/
structure ImageRecord where
  image_base : Nat
  image_max_size : Nat
  skip_loading : Bool
  ep_pc : Nat
  ep_arg0 : Nat
  ep_lr_svc : Nat
deriving DecidableEq

/-- The image-descriptor table: `get_bl_mem_params_node` as a total
lookup (every identity of `ImageId` has a record, so the C `assert`
on a non-NULL node always holds in the model). -/
def Table : Type := ImageId → ImageRecord

/-- The dynamic-config store after `fconf_populate("FW_CONFIG", ...)`:
`FCONF_GET_PROPERTY(dyn_cfg, dtb, id)` returns the entry's
`(config_addr, config_max_size)` or NULL, and
`dyn_cfg_dtb_info_get_index id = FCONF_INVALID_IDX` exactly when the
same lookup is NULL. -/
structure ConfigEntry where
  addr : Nat
  max_size : Nat
deriving DecidableEq

def ConfigStore : Type := ImageId → Option ConfigEntry

/-- DDR geometry constants used by the resolver: `STM32MP_DDR_BASE`,
`dt_get_ddr_size()`, `STM32MP_DDR_S_SIZE`, `STM32MP_DDR_SHMEM_SIZE`. -/
structure DdrGeom where
  ddr_base : Nat
  ddr_size : Nat
  ddr_s_size : Nat
  ddr_shmem_size : Nat
deriving DecidableEq

/-- Write one record of the descriptor table (the other records are
untouched). -/
def updateTbl (tbl : Table) (id : ImageId) (r : ImageRecord) : Table :=
  fun j => if j = id then r else tbl j

/-- The outputs `parse_optee_header` writes through its three pointer
arguments when it succeeds: the refined entry point and the pager /
paged sub-image placements. -/
structure ParsedOptee where
  ep_pc : Nat
  pager_base : Nat
  pager_max_size : Nat
  paged_base : Nat
  paged_max_size : Nat
deriving DecidableEq

/-- The external facts the BL32 branch consumes: the result of
`optee_header_is_valid` on the loaded image's leading bytes, and the
result of `parse_optee_header` (`none` = non-zero error return). -/
structure OpteeEnv where
  header_valid : Bool
  parse : Option ParsedOptee
deriving DecidableEq

/-- The `image_ids[]` array iterated by the `FW_CONFIG_ID` branch. -/
def image_ids : List ImageId := [.BL32, .BL33, .HW_CONFIG, .TOS_FW_CONFIG]

/-- One iteration of the `FW_CONFIG_ID` loop body for identity `id`:
skip when `id` is `TOS_FW_CONFIG` and its dtb-info index is invalid;
skip when `FCONF_GET_PROPERTY` is NULL; otherwise overwrite the
record's base / max size, clear its skip-loading attribute, and run the
per-identity switch (BL32 additionally seeds `ep_info.pc` and the
pager / paged sub-images; BL33 sets `ep_info.pc`). The Bool is `true`
exactly when the `default:` arm's `return -EINVAL` fires. -/
def fwConfigStep (cfg : ConfigStore) (geom : DdrGeom) (tbl : Table)
    (id : ImageId) : Table × Bool :=
  if id = ImageId.TOS_FW_CONFIG ∧ cfg ImageId.TOS_FW_CONFIG = none then
    (tbl, false)
  else
    match cfg id with
    | none => (tbl, false)
    | some ci =>
      let tbl := updateTbl tbl id
        { tbl id with
          image_base := ci.addr
          image_max_size := ci.max_size
          skip_loading := false }
      match id with
      | .BL32 =>
        let tbl := updateTbl tbl .BL32 { tbl .BL32 with ep_pc := ci.addr }
        let tbl := updateTbl tbl .BL32_EXTRA1
          { tbl .BL32_EXTRA1 with
            image_base := ci.addr
            image_max_size := ci.max_size }
        let tbl := updateTbl tbl .BL32_EXTRA2
          { tbl .BL32_EXTRA2 with
            image_base := geom.ddr_base +
              (geom.ddr_size - geom.ddr_s_size - geom.ddr_shmem_size)
            image_max_size := geom.ddr_s_size }
        (tbl, false)
      | .BL33 =>
        (updateTbl tbl .BL33 { tbl .BL33 with ep_pc := ci.addr }, false)
      | .HW_CONFIG => (tbl, false)
      | .TOS_FW_CONFIG => (tbl, false)
      | _ => (tbl, true)

/-- The `for (i = 0; i < ARRAY_SIZE(image_ids); i++)` loop: runs the
step for each identity in order; a `true` flag aborts the whole handler
with `-EINVAL` (= -22). -/
def fwConfigLoop (cfg : ConfigStore) (geom : DdrGeom) :
    Table → List ImageId → Table × Int
  | tbl, [] => (tbl, 0)
  | tbl, id :: rest =>
    match fwConfigStep cfg geom tbl id with
    | (tbl2, true) => (tbl2, -22)
    | (tbl2, false) => fwConfigLoop cfg geom tbl2 rest

/-- Outcome of `bl2_plat_handle_post_image_load`: a normal return with
the updated table and integer return value, or `panic()`. -/
inductive Outcome where
  | ok (tbl : Table) (ret : Int)
  | panic

/-- The `BL32_IMAGE_ID` branch. If `optee_header_is_valid` holds on the
loaded bytes: set `ep_info.pc` to the image base, run
`parse_optee_header` on the entry point and the pager / paged records
(panic on failure), then set `arg0` to the parsed paged base and clear
`arg1`/`arg2`. Otherwise (monolithic image, `!STM32MP_USE_STM32IMAGE`):
set `ep_info.pc` to the image base, extend the image's max size by the
`TOS_FW_CONFIG` record's max size, and clear `arg0`. -/
def bl32Branch (env : OpteeEnv) (tbl : Table) : Outcome :=
  if env.header_valid then
    let tbl1 := updateTbl tbl .BL32 { tbl .BL32 with ep_pc := (tbl .BL32).image_base }
    match env.parse with
    | none => .panic
    | some p =>
      let tbl2 := updateTbl tbl1 .BL32_EXTRA1
        { tbl1 .BL32_EXTRA1 with
          image_base := p.pager_base
          image_max_size := p.pager_max_size }
      let tbl3 := updateTbl tbl2 .BL32_EXTRA2
        { tbl2 .BL32_EXTRA2 with
          image_base := p.paged_base
          image_max_size := p.paged_max_size }
      let tbl4 := updateTbl tbl3 .BL32
        { tbl3 .BL32 with
          ep_pc := p.ep_pc
          ep_arg0 := (tbl3 .BL32_EXTRA2).image_base }
      .ok tbl4 0
  else
    .ok (updateTbl tbl .BL32
      { tbl .BL32 with
        ep_pc := (tbl .BL32).image_base
        image_max_size := (tbl .BL32).image_max_size +
          (tbl .TOS_FW_CONFIG).image_max_size
        ep_arg0 := 0 }) 0

/-- `bl2_plat_handle_post_image_load` for build configuration
`!STM32MP_USE_STM32IMAGE`. The `FW_CONFIG_ID` branch takes the config
store as already populated by `fconf_populate` (external parsing); the
trailing MMC cache-invalidation block touches no image record and is
not modelled. The `default:` arm of the outer switch does nothing and
the function returns `err = 0`. -/
def bl2_plat_handle_post_image_load (cfg : ConfigStore) (geom : DdrGeom)
    (env : OpteeEnv) (tbl : Table) (image_id : ImageId) : Outcome :=
  match image_id with
  | .FW_CONFIG =>
    match fwConfigLoop cfg geom tbl image_ids with
    | (tbl2, r) => .ok tbl2 r
  | .BL32 => bl32Branch env tbl
  | .BL33 =>
    .ok (updateTbl tbl .BL32
      { tbl .BL32 with ep_lr_svc := (tbl .BL33).ep_pc }) 0
  | _ => .ok tbl 0

/-- The state `sip_svc_init` leaves behind: the per-CPU array and count
come from `read_cpuinfo_from_dt`; the version and GIC fields are given
abstractly (they are read by other init steps). -/
def sip_svc_init_state (nodes : List DtCpuNode) (arr0 : Nat → CpuData)
    (mpidr0 vmaj vmin gd gr its : Nat) : PlatState :=
  { num_cpus := (read_cpuinfo_from_dt nodes arr0 mpidr0).2
    cpu := (read_cpuinfo_from_dt nodes arr0 mpidr0).1
    platform_version_major := vmaj
    platform_version_minor := vmin
    gicd := gd
    gicr := gr
    gic_its_addr := its }

/-- A concrete descriptor table used by the closed witnesses. -/
def tblW : Table := fun _ =>
  { image_base := 0
    image_max_size := 0
    skip_loading := true
    ep_pc := 0
    ep_arg0 := 5
    ep_lr_svc := 0 }

/-- A concrete config store used by the closed witnesses: entries for
the TrustedOS and normal-world-loader identities only. -/
def cfgW : ConfigStore := fun id =>
  if id = ImageId.BL32 then some ⟨4096, 512⟩
  else if id = ImageId.BL33 then some ⟨8192, 1024⟩
  else none

/-- Concrete DDR geometry used by the closed witnesses. -/
def geomW : DdrGeom := ⟨4096, 2048, 256, 128⟩

/-- OP-TEE environment with an unrecognized composite header. -/
def envW : OpteeEnv := ⟨false, none⟩

/-- OP-TEE environment with a valid magic but a failing header parse. -/
def envX : OpteeEnv := ⟨true, none⟩

theorem read_cpuinfo_loop_count (nodes : List DtCpuNode) (nid mp : Nat)
    (arr : Nat → CpuData) (cpu : Nat) :
    (read_cpuinfo_loop nodes nid mp arr cpu).2 = cpu + nodes.length := by
  induction nodes generalizing nid mp arr cpu with
  | nil => simp [read_cpuinfo_loop]
  | cons n rest ih =>
    simp only [read_cpuinfo_loop, ih, List.length_cons]
    omega

theorem read_cpuinfo_loop_frame (nodes : List DtCpuNode) (nid mp : Nat)
    (arr : Nat → CpuData) (cpu j : Nat) (h : j < cpu) :
    (read_cpuinfo_loop nodes nid mp arr cpu).1 j = arr j := by
  induction nodes generalizing nid mp arr cpu with
  | nil => simp [read_cpuinfo_loop]
  | cons n rest ih =>
    simp only [read_cpuinfo_loop]
    rw [ih _ _ _ _ (by omega)]
    simp only [cpuStore]
    rw [if_neg (by omega)]

theorem read_cpuinfo_loop_get (nodes : List DtCpuNode) (nid mp : Nat)
    (arr : Nat → CpuData) (cpu i : Nat) (h : i < nodes.length) :
    (read_cpuinfo_loop nodes nid mp arr cpu).1 (cpu + i) =
      (traverse_pairs nodes nid mp).getD i ⟨0, 0⟩ := by
  induction nodes generalizing nid mp arr cpu i with
  | nil => simp at h
  | cons n rest ih =>
    cases i with
    | zero =>
      simp only [read_cpuinfo_loop, traverse_pairs, Nat.add_zero,
        List.getD_cons_zero]
      rw [read_cpuinfo_loop_frame _ _ _ _ _ _ (by omega)]
      simp [cpuStore]
    | succ k =>
      have hk : k < rest.length := by
        simpa using Nat.lt_of_succ_lt_succ (by simpa using h)
      simp only [read_cpuinfo_loop, traverse_pairs, List.getD_cons_succ]
      rw [show cpu + (k + 1) = (cpu + 1) + k by omega]
      exact ih _ _ _ _ _ hk

/-- C2: a Call Gate request whose caller flags do not indicate the
non-secure world receives the single `SMC_UNK` status, for every
function id and argument tuple, identically to a non-secure request
with an unrecognized function id. -/
theorem sip_handler_rejects_secure_caller (coreCount : Nat) (st : PlatState)
    (smc_fid x1 x2 x3 x4 flags : Nat)
    (h : is_caller_non_secure flags = false) :
    sbsa_sip_smc_handler coreCount st smc_fid x1 x2 x3 x4 flags =
      .ret1 SMC_UNK ∧
    sbsa_sip_smc_handler coreCount st smc_fid x1 x2 x3 x4 flags =
      sbsa_sip_smc_handler coreCount st (SIP_FUNCTION_ID 999) x1 x2 x3 x4 1 := by
  refine ⟨by simp [sbsa_sip_smc_handler, h], ?_⟩
  rw [show sbsa_sip_smc_handler coreCount st (SIP_FUNCTION_ID 999) x1 x2 x3 x4 1 =
      .ret1 SMC_UNK by
    simp [sbsa_sip_smc_handler, is_caller_non_secure, SIP_FUNCTION_ID,
      SIP_FUNCTION, SMC64_FUNCTION, SMC_FASTCALL, SIP_SVC_VERSION,
      SIP_SVC_GET_GIC, SIP_SVC_GET_GIC_ITS, SIP_SVC_GET_CPU_COUNT,
      SIP_SVC_GET_CPU_NODE]]
  simp [sbsa_sip_smc_handler, h]

/-- Closed witness for `sip_handler_rejects_secure_caller`. -/
theorem sip_handler_rejects_secure_caller_witness :
    is_caller_non_secure 0 = false ∧
    sbsa_sip_smc_handler 1 (sip_svc_init_state [] (fun _ => ⟨0, 0⟩) 0 0 0 0 0 0)
      SIP_SVC_VERSION 0 0 0 0 0 = .ret1 SMC_UNK :=
  ⟨rfl, (sip_handler_rejects_secure_caller 1
    (sip_svc_init_state [] (fun _ => ⟨0, 0⟩) 0 0 0 0 0 0)
    SIP_SVC_VERSION 0 0 0 0 0 rfl).1⟩

/-- C5 (code defect): `read_cpuinfo_from_dt` counts every `/cpus`
sub-node with no bound, so a blob with `PLATFORM_CORE_COUNT + 1`
processing-unit sub-nodes drives `num_cpus` strictly past the declared
capacity (and the loop stores past the end of the fixed array). -/
theorem cpu_count_exceeds_capacity (coreCount : Nat) (arr0 : Nat → CpuData)
    (mpidr0 : Nat) :
    (read_cpuinfo_from_dt (List.replicate (coreCount + 1) ⟨some 0, none⟩)
        arr0 mpidr0).2 = coreCount + 1 ∧
    coreCount <
      (read_cpuinfo_from_dt (List.replicate (coreCount + 1) ⟨some 0, none⟩)
        arr0 mpidr0).2 := by
  have h := read_cpuinfo_loop_count
    (List.replicate (coreCount + 1) ⟨some 0, none⟩) 0 mpidr0 arr0 0
  simp only [read_cpuinfo_from_dt]
  rw [h, List.length_replicate]
  omega

/-- C9 (code defect): with both platform-version properties absent from
the root node, `read_platform_version` feeds `fdt_getprop`'s NULL into
`fdt32_ld` (modelled `none`), instead of leaving the 0.0 defaults. -/
theorem read_platform_version_null_deref :
    read_platform_version ⟨none, none⟩ = none ∧
    read_platform_version ⟨none, none⟩ ≠ some (0, 0) := by
  decide

/-- C4: after platform-descriptor initialization, a cpu-node query with
index below `PLATFORM_CORE_COUNT` returns the three-word tuple
`(reserved, node_id[index], affinity_id[index])`, and for
`index < cpu_count` that slot is exactly the index-th pair appended
during DeviceTree traversal; an index at or past the capacity gets the
single "invalid parameter" status, distinct from "unknown function". -/
theorem cpu_node_query_spec (coreCount : Nat) (nodes : List DtCpuNode)
    (arr0 : Nat → CpuData) (mpidr0 vmaj vmin gd gr its index x2 x3 x4 : Nat) :
    (index < coreCount →
      sbsa_sip_smc_handler coreCount
          (sip_svc_init_state nodes arr0 mpidr0 vmaj vmin gd gr its)
          SIP_SVC_GET_CPU_NODE index x2 x3 x4 1 =
        .ret3 0 (((read_cpuinfo_from_dt nodes arr0 mpidr0).1 index).nodeid : Int)
          (((read_cpuinfo_from_dt nodes arr0 mpidr0).1 index).mpidr : Int)) ∧
    (index < (read_cpuinfo_from_dt nodes arr0 mpidr0).2 →
      (read_cpuinfo_from_dt nodes arr0 mpidr0).1 index =
        (traverse_pairs nodes 0 mpidr0).getD index ⟨0, 0⟩) ∧
    (coreCount ≤ index →
      sbsa_sip_smc_handler coreCount
          (sip_svc_init_state nodes arr0 mpidr0 vmaj vmin gd gr its)
          SIP_SVC_GET_CPU_NODE index x2 x3 x4 1 =
        .ret1 SMC_ARCH_CALL_INVAL_PARAM) ∧
    SMC_ARCH_CALL_INVAL_PARAM ≠ SMC_UNK := by
  refine ⟨?_, ?_, ?_, by decide⟩
  · intro hlt
    simp [sbsa_sip_smc_handler, sip_svc_init_state, is_caller_non_secure,
      SIP_SVC_VERSION, SIP_SVC_GET_GIC, SIP_SVC_GET_GIC_ITS,
      SIP_SVC_GET_CPU_COUNT, SIP_SVC_GET_CPU_NODE, SIP_FUNCTION_ID,
      SIP_FUNCTION, SMC64_FUNCTION, SMC_FASTCALL, hlt]
  · intro hcnt
    have hlen : index < nodes.length := by
      have h := read_cpuinfo_loop_count nodes 0 mpidr0 arr0 0
      simp only [read_cpuinfo_from_dt] at hcnt
      omega
    have h := read_cpuinfo_loop_get nodes 0 mpidr0 arr0 0 index hlen
    simpa [read_cpuinfo_from_dt] using h
  · intro hge
    simp [sbsa_sip_smc_handler, sip_svc_init_state, is_caller_non_secure,
      SIP_SVC_VERSION, SIP_SVC_GET_GIC, SIP_SVC_GET_GIC_ITS,
      SIP_SVC_GET_CPU_COUNT, SIP_SVC_GET_CPU_NODE, SIP_FUNCTION_ID,
      SIP_FUNCTION, SMC64_FUNCTION, SMC_FASTCALL, Nat.not_lt_of_ge hge]

/-- Closed witness for `cpu_node_query_spec`: a two-CPU DeviceTree, an
in-range query and an out-of-range query. -/
theorem cpu_node_query_spec_witness :
    sbsa_sip_smc_handler 4
        (sip_svc_init_state [⟨some 7, some 3⟩, ⟨some 8, none⟩]
          (fun _ => ⟨0, 0⟩) 0 0 0 0 0 0)
        SIP_SVC_GET_CPU_NODE 1 0 0 0 1 = .ret3 0 3 8 ∧
    sbsa_sip_smc_handler 4
        (sip_svc_init_state [⟨some 7, some 3⟩, ⟨some 8, none⟩]
          (fun _ => ⟨0, 0⟩) 0 0 0 0 0 0)
        SIP_SVC_GET_CPU_NODE 9 0 0 0 1 = .ret1 SMC_ARCH_CALL_INVAL_PARAM := by
  refine ⟨?_, ?_⟩
  · rw [(cpu_node_query_spec 4 [⟨some 7, some 3⟩, ⟨some 8, none⟩]
      (fun _ => ⟨0, 0⟩) 0 0 0 0 0 0 1 0 0 0).1 (by decide)]
    decide
  · exact (cpu_node_query_spec 4 [⟨some 7, some 3⟩, ⟨some 8, none⟩]
      (fun _ => ⟨0, 0⟩) 0 0 0 0 0 0 9 0 0 0).2.2.1 (by decide)

/-- C6 counterexample: a one-CPU platform with capacity 4; the query at
index 2 ≥ cpu_count = 1 returns a SUCCESS tuple exposing the
unpopulated (zero-initialised) slot, contradicting the claim that
entries beyond `cpu_count` are never reported. -/
theorem cpu_node_reports_unpopulated_slot :
    (sip_svc_init_state [⟨some 7, some 3⟩] (fun _ => ⟨0, 0⟩)
      0 0 0 0 0 0).num_cpus = 1 ∧
    sbsa_sip_smc_handler 4
        (sip_svc_init_state [⟨some 7, some 3⟩] (fun _ => ⟨0, 0⟩) 0 0 0 0 0 0)
        SIP_SVC_GET_CPU_NODE 2 0 0 0 1 = .ret3 0 0 0 := by
  decide

/-- C6 amended: the cpu-node query rejects only indices at or past the
capacity `PLATFORM_CORE_COUNT` with "invalid parameter"; an index
between `cpu_count` and the capacity is answered with a success tuple
carrying the unpopulated slot's contents. -/
theorem cpu_node_query_bounds_amended (coreCount : Nat) (st : PlatState)
    (index x2 x3 x4 : Nat) :
    (coreCount ≤ index →
      sbsa_sip_smc_handler coreCount st SIP_SVC_GET_CPU_NODE index x2 x3 x4 1 =
        .ret1 SMC_ARCH_CALL_INVAL_PARAM) ∧
    (st.num_cpus ≤ index → index < coreCount →
      sbsa_sip_smc_handler coreCount st SIP_SVC_GET_CPU_NODE index x2 x3 x4 1 =
        .ret3 0 ((st.cpu index).nodeid : Int) ((st.cpu index).mpidr : Int)) := by
  constructor
  · intro hge
    simp [sbsa_sip_smc_handler, is_caller_non_secure, SIP_SVC_VERSION,
      SIP_SVC_GET_GIC, SIP_SVC_GET_GIC_ITS, SIP_SVC_GET_CPU_COUNT,
      SIP_SVC_GET_CPU_NODE, SIP_FUNCTION_ID, SIP_FUNCTION, SMC64_FUNCTION,
      SMC_FASTCALL, Nat.not_lt_of_ge hge]
  · intro _ hlt
    simp [sbsa_sip_smc_handler, is_caller_non_secure, SIP_SVC_VERSION,
      SIP_SVC_GET_GIC, SIP_SVC_GET_GIC_ITS, SIP_SVC_GET_CPU_COUNT,
      SIP_SVC_GET_CPU_NODE, SIP_FUNCTION_ID, SIP_FUNCTION, SMC64_FUNCTION,
      SMC_FASTCALL, hlt]

/-- Closed witness for `cpu_node_query_bounds_amended`. -/
theorem cpu_node_query_bounds_amended_witness :
    sbsa_sip_smc_handler 4
        (sip_svc_init_state [⟨some 7, some 3⟩] (fun _ => ⟨0, 0⟩) 0 0 0 0 0 0)
        SIP_SVC_GET_CPU_NODE 9 0 0 0 1 = .ret1 SMC_ARCH_CALL_INVAL_PARAM ∧
    sbsa_sip_smc_handler 4
        (sip_svc_init_state [⟨some 7, some 3⟩] (fun _ => ⟨0, 0⟩) 0 0 0 0 0 0)
        SIP_SVC_GET_CPU_NODE 2 0 0 0 1 =
      .ret3 0 (((sip_svc_init_state [⟨some 7, some 3⟩] (fun _ => ⟨0, 0⟩)
        0 0 0 0 0 0).cpu 2).nodeid : Int)
        (((sip_svc_init_state [⟨some 7, some 3⟩] (fun _ => ⟨0, 0⟩)
          0 0 0 0 0 0).cpu 2).mpidr : Int) :=
  ⟨(cpu_node_query_bounds_amended 4
      (sip_svc_init_state [⟨some 7, some 3⟩] (fun _ => ⟨0, 0⟩) 0 0 0 0 0 0)
      9 0 0 0).1 (by decide),
   (cpu_node_query_bounds_amended 4
      (sip_svc_init_state [⟨some 7, some 3⟩] (fun _ => ⟨0, 0⟩) 0 0 0 0 0 0)
      2 0 0 0).2 (by decide) (by decide)⟩

theorem fwConfigLoop_extra2 (cfg : ConfigStore) (geom : DdrGeom) (tbl : Table)
    (ci : ConfigEntry) (h : cfg ImageId.BL32 = some ci) :
    ((fwConfigLoop cfg geom tbl image_ids).1 ImageId.BL32_EXTRA2).image_base =
      geom.ddr_base + (geom.ddr_size - geom.ddr_s_size - geom.ddr_shmem_size) ∧
    ((fwConfigLoop cfg geom tbl image_ids).1 ImageId.BL32_EXTRA2).image_max_size =
      geom.ddr_s_size := by
  rcases h33 : cfg ImageId.BL33 with _ | c33 <;>
  rcases hhw : cfg ImageId.HW_CONFIG with _ | chw <;>
  rcases htos : cfg ImageId.TOS_FW_CONFIG with _ | ctos <;>
  simp [fwConfigLoop, fwConfigStep, updateTbl, image_ids, h, h33, hhw, htos]

/-- C1: whenever the Config Store holds a TrustedOS entry, the
firmware-config pass anchors the paged-overlay sub-image at
`ddr_base + ddr_size − secure_size − shared_size` with max size
`secure_size`, and the computed overlay base is unchanged when the
TrustedOS entry's resolved address varies with the geometry fixed. -/
theorem fw_config_overlay_placement (cfg cfg2 : ConfigStore) (geom : DdrGeom)
    (tbl tbl2 : Table) (ci ci2 : ConfigEntry)
    (h : cfg ImageId.BL32 = some ci) (h2 : cfg2 ImageId.BL32 = some ci2)
    (hgeom : geom.ddr_s_size + geom.ddr_shmem_size ≤ geom.ddr_size) :
    ((fwConfigLoop cfg geom tbl image_ids).1 ImageId.BL32_EXTRA2).image_base =
      geom.ddr_base + geom.ddr_size - geom.ddr_s_size - geom.ddr_shmem_size ∧
    ((fwConfigLoop cfg geom tbl image_ids).1 ImageId.BL32_EXTRA2).image_max_size =
      geom.ddr_s_size ∧
    ((fwConfigLoop cfg2 geom tbl2 image_ids).1 ImageId.BL32_EXTRA2).image_base =
      ((fwConfigLoop cfg geom tbl image_ids).1 ImageId.BL32_EXTRA2).image_base := by
  obtain ⟨e1, e2⟩ := fwConfigLoop_extra2 cfg geom tbl ci h
  obtain ⟨e3, _⟩ := fwConfigLoop_extra2 cfg2 geom tbl2 ci2 h2
  refine ⟨?_, e2, ?_⟩
  · rw [e1]; omega
  · rw [e1, e3]

/-- Closed witness for `fw_config_overlay_placement`. -/
theorem fw_config_overlay_placement_witness :
    ((fwConfigLoop cfgW geomW tblW image_ids).1 ImageId.BL32_EXTRA2).image_base =
      geomW.ddr_base + geomW.ddr_size - geomW.ddr_s_size - geomW.ddr_shmem_size ∧
    ((fwConfigLoop cfgW geomW tblW image_ids).1 ImageId.BL32_EXTRA2).image_max_size =
      geomW.ddr_s_size ∧
    ((fwConfigLoop cfgW geomW tblW image_ids).1 ImageId.BL32_EXTRA2).image_base =
      ((fwConfigLoop cfgW geomW tblW image_ids).1 ImageId.BL32_EXTRA2).image_base :=
  fw_config_overlay_placement cfgW cfgW geomW tblW tblW ⟨4096, 512⟩ ⟨4096, 512⟩
    (by decide) (by decide) (by decide)

/-- C3: the firmware-config pass, for each identity in the iterated
list `image_ids`: with a config entry present, the record's base and
max size become the entry's values and skip-loading is cleared; with no
entry, the record is left untouched. -/
theorem fw_config_resolution_per_id (cfg : ConfigStore) (geom : DdrGeom)
    (env : OpteeEnv) (tbl : Table) (id : ImageId) (hid : id ∈ image_ids) :
    bl2_plat_handle_post_image_load cfg geom env tbl ImageId.FW_CONFIG =
      Outcome.ok (fwConfigLoop cfg geom tbl image_ids).1
        (fwConfigLoop cfg geom tbl image_ids).2 ∧
    (∀ ci, cfg id = some ci →
      ((fwConfigLoop cfg geom tbl image_ids).1 id).image_base = ci.addr ∧
      ((fwConfigLoop cfg geom tbl image_ids).1 id).image_max_size = ci.max_size ∧
      ((fwConfigLoop cfg geom tbl image_ids).1 id).skip_loading = false) ∧
    (cfg id = none → (fwConfigLoop cfg geom tbl image_ids).1 id = tbl id) := by
  refine ⟨rfl, ?_⟩
  simp only [image_ids, List.mem_cons, List.not_mem_nil, or_false] at hid
  rcases hid with rfl | rfl | rfl | rfl <;>
  rcases h32 : cfg ImageId.BL32 with _ | c32 <;>
  rcases h33 : cfg ImageId.BL33 with _ | c33 <;>
  rcases hhw : cfg ImageId.HW_CONFIG with _ | chw <;>
  rcases htos : cfg ImageId.TOS_FW_CONFIG with _ | ctos <;>
  simp [fwConfigLoop, fwConfigStep, updateTbl, image_ids, h32, h33, hhw, htos]

/-- Closed witness for `fw_config_resolution_per_id`. -/
theorem fw_config_resolution_per_id_witness :
    ((fwConfigLoop cfgW geomW tblW image_ids).1 ImageId.BL33).image_base = 8192 ∧
    ((fwConfigLoop cfgW geomW tblW image_ids).1 ImageId.BL33).image_max_size = 1024 ∧
    ((fwConfigLoop cfgW geomW tblW image_ids).1 ImageId.BL33).skip_loading = false ∧
    (fwConfigLoop cfgW geomW tblW image_ids).1 ImageId.HW_CONFIG =
      tblW ImageId.HW_CONFIG := by
  refine ⟨?_, ?_, ?_, ?_⟩
  · exact ((fw_config_resolution_per_id cfgW geomW envW tblW ImageId.BL33
      (by decide)).2.1 ⟨8192, 1024⟩ (by decide)).1
  · exact ((fw_config_resolution_per_id cfgW geomW envW tblW ImageId.BL33
      (by decide)).2.1 ⟨8192, 1024⟩ (by decide)).2.1
  · exact ((fw_config_resolution_per_id cfgW geomW envW tblW ImageId.BL33
      (by decide)).2.1 ⟨8192, 1024⟩ (by decide)).2.2
  · exact (fw_config_resolution_per_id cfgW geomW envW tblW ImageId.HW_CONFIG
      (by decide)).2.2 (by decide)

/-- C7: a loaded TrustedOS image without a recognized composite header
is treated as monolithic: entry point set to its own base, max size
extended by the `TOS_FW_CONFIG` record's max size, first forwarded
argument word cleared. -/
theorem bl32_monolithic_fallback (cfg : ConfigStore) (geom : DdrGeom)
    (env : OpteeEnv) (tbl : Table) (h : env.header_valid = false) :
    bl2_plat_handle_post_image_load cfg geom env tbl ImageId.BL32 =
      Outcome.ok (updateTbl tbl ImageId.BL32
        { tbl ImageId.BL32 with
          ep_pc := (tbl ImageId.BL32).image_base
          image_max_size := (tbl ImageId.BL32).image_max_size +
            (tbl ImageId.TOS_FW_CONFIG).image_max_size
          ep_arg0 := 0 }) 0 := by
  simp [bl2_plat_handle_post_image_load, bl32Branch, h]

/-- Closed witness for `bl32_monolithic_fallback`. -/
theorem bl32_monolithic_fallback_witness :
    bl2_plat_handle_post_image_load cfgW geomW envW tblW ImageId.BL32 =
      Outcome.ok (updateTbl tblW ImageId.BL32
        { tblW ImageId.BL32 with
          ep_pc := (tblW ImageId.BL32).image_base
          image_max_size := (tblW ImageId.BL32).image_max_size +
            (tblW ImageId.TOS_FW_CONFIG).image_max_size
          ep_arg0 := 0 }) 0 :=
  bl32_monolithic_fallback cfgW geomW envW tblW rfl

/-- C8: a TrustedOS image that passes the composite-header magic check
but whose header fails to parse makes resolution panic. -/
theorem bl32_optee_parse_failure_panics (cfg : ConfigStore) (geom : DdrGeom)
    (env : OpteeEnv) (tbl : Table) (h1 : env.header_valid = true)
    (h2 : env.parse = none) :
    bl2_plat_handle_post_image_load cfg geom env tbl ImageId.BL32 =
      Outcome.panic := by
  simp [bl2_plat_handle_post_image_load, bl32Branch, h1, h2]

/-- Closed witness for `bl32_optee_parse_failure_panics`. -/
theorem bl32_optee_parse_failure_panics_witness :
    bl2_plat_handle_post_image_load cfgW geomW envX tblW ImageId.BL32 =
      Outcome.panic :=
  bl32_optee_parse_failure_panics cfgW geomW envX tblW rfl rfl

/-- C10: for every image identity other than firmware-config, TrustedOS
and the normal-world loader, the post-image-load resolver leaves the
whole descriptor table unchanged and returns 0. -/
theorem post_image_load_other_ids_noop (cfg : ConfigStore) (geom : DdrGeom)
    (env : OpteeEnv) (tbl : Table) (id : ImageId)
    (h1 : id ≠ ImageId.FW_CONFIG) (h2 : id ≠ ImageId.BL32)
    (h3 : id ≠ ImageId.BL33) :
    bl2_plat_handle_post_image_load cfg geom env tbl id = Outcome.ok tbl 0 := by
  cases id <;>
    first
    | exact absurd rfl h1
    | exact absurd rfl h2
    | exact absurd rfl h3
    | rfl

/-- Closed witness for `post_image_load_other_ids_noop`. -/
theorem post_image_load_other_ids_noop_witness :
    bl2_plat_handle_post_image_load cfgW geomW envW tblW ImageId.HW_CONFIG =
      Outcome.ok tblW 0 :=
  post_image_load_other_ids_noop cfgW geomW envW tblW ImageId.HW_CONFIG
    (by decide) (by decide) (by decide)
